import Mathlib

/-!
Verification of the HTTP bridge service in `main.go` of
remote-tsdb-clickhouse.

The file shallowly embeds the request handlers registered in `main` (the
`/write`, `/read` and `/` handlers together with the helper function
`read`) as pure functions that, given the outcomes of the external calls
they make (wire decoding, the ClickHouse adapter, wire encoding), produce
the ordered trace of observable events the Go code performs: counter
updates, body decoding, storage calls, header writes, status writes and
body writes.  Prometheus counters are recovered from a trace by summing
the deltas of the counter events, which makes ordering claims ("the
request counter is bumped before the body is decoded") and accounting
claims ("the error counter grows by exactly one") directly statable.
-/

namespace RemoteTsdb

/-- A Go `error` value as the handlers see it: either `context.Canceled`,
an error wrapping another one via `fmt.Errorf("...: %w", err)`, or a leaf
error with a message.  This mirrors the error values flowing through
`main.go`, where `read` wraps the codec/adapter errors and the handlers
test `errors.Is(err, context.Canceled)`. -/
inductive GoError where
  | canceled : GoError
  | wrap : String → GoError → GoError
  | msg : String → GoError
deriving DecidableEq, Repr

/-- Models `errors.Is(err, context.Canceled)`: walks the wrapping chain
produced by `fmt.Errorf("%w", ...)` and reports whether
`context.Canceled` is in it. -/
def errorsIsCanceled : GoError → Bool
  | .canceled => true
  | .wrap _ inner => errorsIsCanceled inner
  | .msg _ => false

/-- Models `err.Error()`: Go renders `fmt.Errorf("m: %w", e)` as
`"m: " + e.Error()` and `context.Canceled.Error()` is
`"context canceled"`. -/
def errString : GoError → String
  | .canceled => "context canceled"
  | .wrap m inner => m ++ ": " ++ errString inner
  | .msg m => m

/-- The five prometheus counters registered in `main.go`. -/
inductive CounterName where
  | samplesWritten
  | writeRequests
  | writeErrors
  | readRequests
  | readErrors
deriving DecidableEq, Repr

/-- One observable action of a handler, in program order. -/
inductive Event where
  /-- a `counter.Inc()` call -/
  | inc : CounterName → Event
  /-- a `counter.Add(n)` call -/
  | add : CounterName → Int → Event
  /-- the wire codec consumes `r.Body` (`DecodeWriteRequest` / `DecodeReadRequest`) -/
  | decodeBody : Event
  /-- a call into the ClickHouse adapter (`WriteRequest` / `ReadRequest`) -/
  | storage : Event
  /-- a `w.Header().Set(name, value)` call -/
  | setHeader : String → String → Event
  /-- a `w.WriteHeader(status)` call -/
  | writeHeader : Nat → Event
  /-- a body write (`io.WriteString`, the encoder, or `http.Error`'s text) -/
  | write : String → Event
  /-- the `r.Body.Close()` call -/
  | closeBody : Event
deriving DecidableEq, Repr

/-- The contribution of one event to one counter.  Only `inc` and `add`
touch counters. -/
def counterDelta (c : CounterName) : Event → Int
  | .inc c' => if c' = c then 1 else 0
  | .add c' n => if c' = c then n else 0
  | _ => 0

/-- Total change of counter `c` over a trace. -/
def counterTotal (c : CounterName) : List Event → Int
  | [] => 0
  | e :: tr => counterDelta c e + counterTotal c tr

/-- Models `http.Error(w, msg, code)`: sets a plain-text content type and
the nosniff header, writes the status, then writes `msg` followed by a
newline. -/
def httpError (m : String) (code : Nat) : List Event :=
  [.setHeader "Content-Type" "text/plain; charset=utf-8",
   .setHeader "X-Content-Type-Options" "nosniff",
   .writeHeader code,
   .write (m ++ "\n")]

/-- The helper `read` in `main.go`, parameterized by the outcomes of its
three external calls: `DecodeReadRequest(r.Body)`, `ch.ReadRequest` and
`EncodeReadResponse` (whose success carries the encoded bytes written to
`w`).  Returns the events it performs on `w` plus the error it returns to
its caller, with the same `fmt.Errorf` wrapping as the source. -/
def read (decRes : Except GoError Unit) (storageRes : Except GoError Unit)
    (encRes : Except GoError String) : List Event × Option GoError :=
  match decRes with
  | .error e => ([.decodeBody], some (.wrap "DecodeReadRequest" e))
  | .ok _ =>
    match storageRes with
    | .error e => ([.decodeBody, .storage], some (.wrap "ReadRequest" e))
    | .ok _ =>
      match encRes with
      | .error e =>
          ([.decodeBody, .storage,
            .setHeader "Content-Type" "application/x-protobuf",
            .setHeader "Content-Encoding" "snappy"],
           some (.wrap "EncodeReadResponse" e))
      | .ok body =>
          ([.decodeBody, .storage,
            .setHeader "Content-Type" "application/x-protobuf",
            .setHeader "Content-Encoding" "snappy",
            .write body],
           none)

/-- The `/read` handler closure in `main`: bumps `readRequestsTotal`,
runs `read`, and on a non-cancellation error bumps `readErrorsTotal` and
replies with `http.Error(w, err.Error(), 500)`.  The deferred
`r.Body.Close()` runs last on every path. -/
def readHandler (decRes storageRes : Except GoError Unit)
    (encRes : Except GoError String) : List Event :=
  Event.inc .readRequests ::
    (read decRes storageRes encRes).1 ++
    (match (read decRes storageRes encRes).2 with
     | some e =>
        if errorsIsCanceled e then []
        else Event.inc .readErrors :: httpError (errString e) 500
     | none => []) ++
    [Event.closeBody]

/-- The `/write` handler closure in `main`, parameterized by the outcomes
of `DecodeWriteRequest(r.Body)` and `ch.WriteRequest` (whose success
carries the sample count): bumps `writeRequestsTotal`, and on a decode or
storage error bumps `writeErrorsTotal` and replies with
`http.Error(w, err.Error(), 500)`; on success it adds the count to
`samplesWrittenTotal` when it is positive and writes nothing.  The
deferred `r.Body.Close()` runs last on every path. -/
def writeHandler (decRes : Except GoError Unit)
    (writeRes : Except GoError Int) : List Event :=
  Event.inc .writeRequests ::
    (match decRes with
     | .error e =>
        Event.decodeBody :: Event.inc .writeErrors :: httpError (errString e) 500
     | .ok _ =>
       match writeRes with
       | .error e =>
          [Event.decodeBody, Event.storage, Event.inc .writeErrors] ++
            httpError (errString e) 500
       | .ok count =>
          [Event.decodeBody, Event.storage] ++
            (if 0 < count then [Event.add .samplesWritten count] else [])) ++
    [Event.closeBody]

/-- An inbound HTTP request as far as the `/` handler could observe it. -/
structure HttpRequest where
  method : String
  path : String
  body : String
deriving DecidableEq, Repr

/-- The `/` handler closure in `main`: writes status 404, the fixed
identification string, and closes the body — using nothing of the
request. -/
def rootHandler (_r : HttpRequest) : List Event :=
  [.writeHeader 404, .write "remote-tsdb-clickhouse", .closeBody]

/-- Default of the `-read.ignore-label` flag in `main.go`. -/
def defaultReadIgnoreLabel : String := "remote=clickhouse"

/-- Go flag resolution: the command-line value when given, else the
default. -/
def resolvedIgnoreLabel (passed : Option String) : String :=
  passed.getD defaultReadIgnoreLabel

/-- The calls `main` makes to `ch.IgnoreLabelInReadRequests`, as a list of
argument values: exactly one call with the flag value when it is
non-empty, no call otherwise (`if readRequestIgnoreLabel != ""`). -/
def ignoreLabelConfigCalls (readRequestIgnoreLabel : String) : List String :=
  if readRequestIgnoreLabel ≠ "" then [readRequestIgnoreLabel] else []

/-- Models `strings.Contains(s, ":")`: for a one-character needle,
substring containment is membership of the character in the string. -/
def containsColon (s : String) : Bool :=
  s.data.contains ':'

/-- The listen-address normalization in `main`:
`if !strings.Contains(httpAddr, ":") { httpAddr = ":" + httpAddr }`. -/
def normalizeHttpAddr (httpAddr : String) : String :=
  if containsColon httpAddr then httpAddr else ":" ++ httpAddr

/-- An event that sends response content to the client: an explicit
status write or a body write.  Header `Set` calls alone send nothing. -/
def isResponseWrite : Event → Bool
  | .writeHeader _ => true
  | .write _ => true
  | _ => false

/-! ### Helper lemmas -/

theorem counterTotal_nil (c : CounterName) : counterTotal c [] = 0 := rfl

theorem counterTotal_cons (c : CounterName) (e : Event) (tr : List Event) :
    counterTotal c (e :: tr) = counterDelta c e + counterTotal c tr := rfl

theorem counterTotal_append (c : CounterName) (l₁ l₂ : List Event) :
    counterTotal c (l₁ ++ l₂) = counterTotal c l₁ + counterTotal c l₂ := by
  induction l₁ with
  | nil => simp [counterTotal]
  | cons e tl ih =>
      simp only [List.cons_append, counterTotal_cons, ih]
      ring

/-! ### Claim theorems -/

/-- Claim C5: every request served by the root-path handler receives
status 404 and the fixed body string "remote-tsdb-clickhouse",
independent of the request's method, path suffix, or body. -/
theorem rootHandler_fixed_response (r : HttpRequest) :
    rootHandler r =
      [Event.writeHeader 404, Event.write "remote-tsdb-clickhouse",
       Event.closeBody] := rfl

/-- Claim C10: a configured listen-address string without a colon gets
":" prepended (a bare port becomes a wildcard bind); a string already
containing a colon is used unchanged. -/
theorem httpAddr_normalized (addr : String) :
    (containsColon addr = false → normalizeHttpAddr addr = ":" ++ addr) ∧
    (containsColon addr = true → normalizeHttpAddr addr = addr) := by
  constructor
  · intro h
    simp [normalizeHttpAddr, h]
  · intro h
    simp [normalizeHttpAddr, h]

/-- Witness for `httpAddr_normalized` at the default port and an
explicit host:port value. -/
theorem httpAddr_normalized_witness :
    normalizeHttpAddr "9131" = ":" ++ "9131" ∧
    normalizeHttpAddr "127.0.0.1:9131" = "127.0.0.1:9131" :=
  ⟨(httpAddr_normalized "9131").1 (by decide),
   (httpAddr_normalized "127.0.0.1:9131").2 (by decide)⟩

/-- Claim C7: `IgnoreLabelInReadRequests` is called with the configured
value exactly when the `read.ignore-label` flag value is non-empty (its
default being "remote=clickhouse"), and is never called when the value is
the empty string. -/
theorem ignoreLabel_threading (v : String) :
    defaultReadIgnoreLabel = "remote=clickhouse" ∧
    (v ≠ "" → ignoreLabelConfigCalls v = [v]) ∧
    (v = "" → ignoreLabelConfigCalls v = []) := by
  refine ⟨rfl, ?_, ?_⟩
  · intro h
    simp [ignoreLabelConfigCalls, h]
  · intro h
    simp [ignoreLabelConfigCalls, h]

/-- Witness for `ignoreLabel_threading` at the default value and at the
empty string. -/
theorem ignoreLabel_threading_witness :
    ignoreLabelConfigCalls "remote=clickhouse" = ["remote=clickhouse"] ∧
    ignoreLabelConfigCalls "" = [] :=
  ⟨(ignoreLabel_threading "remote=clickhouse").2.1 (by decide),
   (ignoreLabel_threading "").2.2 rfl⟩

/-- Claim C9: `writeRequestsTotal` and `readRequestsTotal` are
incremented exactly once per request, as the very first action of the
handler, before the body is decoded — so requests that later fail at
decode or storage still count. -/
theorem request_counters_first
    (decW : Except GoError Unit) (wres : Except GoError Int)
    (decR storageRes : Except GoError Unit) (encRes : Except GoError String) :
    (writeHandler decW wres).head? = some (Event.inc .writeRequests) ∧
    counterTotal .writeRequests (writeHandler decW wres) = 1 ∧
    Event.decodeBody ∈ (writeHandler decW wres).tail ∧
    (readHandler decR storageRes encRes).head? = some (Event.inc .readRequests) ∧
    counterTotal .readRequests (readHandler decR storageRes encRes) = 1 ∧
    Event.decodeBody ∈ (readHandler decR storageRes encRes).tail := by
  refine ⟨?_, ?_, ?_, ?_, ?_, ?_⟩
  · cases decW <;> cases wres <;> rfl
  · cases decW with
    | error e =>
        simp [writeHandler, httpError, counterTotal_cons, counterTotal_append,
          counterTotal, counterDelta]
    | ok u =>
        cases wres with
        | error e =>
            simp [writeHandler, httpError, counterTotal_cons, counterTotal_append,
              counterTotal, counterDelta]
        | ok count =>
            by_cases hc : 0 < count <;>
              simp [writeHandler, hc, counterTotal_cons, counterTotal_append,
                counterTotal, counterDelta]
  · cases decW with
    | error e => simp [writeHandler, httpError]
    | ok u =>
        cases wres with
        | error e => simp [writeHandler, httpError]
        | ok count => by_cases hc : 0 < count <;> simp [writeHandler, hc]
  · cases decR <;> cases storageRes <;> cases encRes <;> rfl
  · cases decR with
    | error e =>
        by_cases hc : errorsIsCanceled e <;>
          simp [readHandler, read, httpError, hc, errorsIsCanceled,
            counterTotal_cons, counterTotal_append, counterTotal, counterDelta]
    | ok u =>
        cases storageRes with
        | error e =>
            by_cases hc : errorsIsCanceled e <;>
              simp [readHandler, read, httpError, hc, errorsIsCanceled,
                counterTotal_cons, counterTotal_append, counterTotal, counterDelta]
        | ok v =>
            cases encRes with
            | error e =>
                by_cases hc : errorsIsCanceled e <;>
                  simp [readHandler, read, httpError, hc, errorsIsCanceled,
                    counterTotal_cons, counterTotal_append, counterTotal, counterDelta]
            | ok body =>
                simp [readHandler, read, counterTotal_cons, counterTotal_append,
                  counterTotal, counterDelta]
  · cases decR with
    | error e =>
        by_cases hc : errorsIsCanceled e <;>
          simp [readHandler, read, httpError, hc, errorsIsCanceled]
    | ok u =>
        cases storageRes with
        | error e =>
            by_cases hc : errorsIsCanceled e <;>
              simp [readHandler, read, httpError, hc, errorsIsCanceled]
        | ok v =>
            cases encRes with
            | error e =>
                by_cases hc : errorsIsCanceled e <;>
                  simp [readHandler, read, httpError, hc, errorsIsCanceled]
            | ok body => simp [readHandler, read]

/-- Claim C4: on a fully successful read, the handler sets
`Content-Type: application/x-protobuf` and `Content-Encoding: snappy`
before the encoded response body is written. -/
theorem read_success_headers_before_body (body : String) :
    ∃ l₁ l₂,
      readHandler (.ok ()) (.ok ()) (.ok body) = l₁ ++ Event.write body :: l₂ ∧
      Event.setHeader "Content-Type" "application/x-protobuf" ∈ l₁ ∧
      Event.setHeader "Content-Encoding" "snappy" ∈ l₁ := by
  refine ⟨[Event.inc .readRequests, .decodeBody, .storage,
           .setHeader "Content-Type" "application/x-protobuf",
           .setHeader "Content-Encoding" "snappy"],
          [Event.closeBody], ?_, ?_, ?_⟩
  · rfl
  · simp
  · simp

/-- Claim C8: a successful write whose storage call reports `n` samples
adds exactly `n` to `samplesWrittenTotal` (the `n = 0` skip adds
nothing); a write that fails at decode or at storage leaves
`samplesWrittenTotal` unchanged. -/
theorem samplesWritten_accounting :
    (∀ n : Int, 0 ≤ n →
        counterTotal .samplesWritten (writeHandler (.ok ()) (.ok n)) = n) ∧
    (∀ (e : GoError) (wres : Except GoError Int),
        counterTotal .samplesWritten (writeHandler (.error e) wres) = 0) ∧
    (∀ e : GoError,
        counterTotal .samplesWritten (writeHandler (.ok ()) (.error e)) = 0) := by
  refine ⟨?_, ?_, ?_⟩
  · intro n hn
    by_cases hc : 0 < n
    · simp [writeHandler, hc, counterTotal_cons, counterTotal_append,
        counterTotal, counterDelta]
    · have h0 : n = 0 := le_antisymm (not_lt.mp hc) hn
      simp [writeHandler, hc, h0, counterTotal_cons, counterTotal_append,
        counterTotal, counterDelta]
  · intro e wres
    simp [writeHandler, httpError, counterTotal_cons, counterTotal_append,
      counterTotal, counterDelta]
  · intro e
    simp [writeHandler, httpError, counterTotal_cons, counterTotal_append,
      counterTotal, counterDelta]

/-- Witness for `samplesWritten_accounting`: a write of two samples adds
two; a failed decode adds nothing. -/
theorem samplesWritten_accounting_witness :
    counterTotal .samplesWritten (writeHandler (.ok ()) (.ok 2)) = 2 ∧
    counterTotal .samplesWritten (writeHandler (.error (.msg "bad")) (.ok 5)) = 0 :=
  ⟨samplesWritten_accounting.1 2 (by decide),
   samplesWritten_accounting.2.1 (.msg "bad") (.ok 5)⟩

/-- Claim C6: every counter update performed on any execution path of any
of the three request handlers is an increment by a non-negative amount;
no path decreases or resets a counter. -/
theorem counterDelta_nonneg (c : CounterName) (ev : Event)
    (h : ∀ c' n, ev = Event.add c' n → 0 ≤ n) : 0 ≤ counterDelta c ev := by
  cases ev with
  | inc c' =>
      simp only [counterDelta]
      split <;> omega
  | add c' n =>
      have hn := h c' n rfl
      simp only [counterDelta]
      split <;> omega
  | decodeBody => simp [counterDelta]
  | storage => simp [counterDelta]
  | setHeader a b => simp [counterDelta]
  | writeHeader s => simp [counterDelta]
  | write s => simp [counterDelta]
  | closeBody => simp [counterDelta]

theorem writeHandler_add_pos {c' : CounterName} {n : Int}
    (decRes : Except GoError Unit) (writeRes : Except GoError Int)
    (h : Event.add c' n ∈ writeHandler decRes writeRes) : 0 < n := by
  cases decRes with
  | error e => simp [writeHandler, httpError] at h
  | ok u =>
      cases writeRes with
      | error e => simp [writeHandler, httpError] at h
      | ok count =>
          by_cases hc : 0 < count
          · simp [writeHandler, hc] at h
            omega
          · simp [writeHandler, hc] at h

theorem readHandler_no_add {c' : CounterName} {n : Int}
    (decRes storageRes : Except GoError Unit) (encRes : Except GoError String)
    (h : Event.add c' n ∈ readHandler decRes storageRes encRes) : False := by
  cases decRes with
  | error e =>
      by_cases hc : errorsIsCanceled e <;>
        simp [readHandler, read, httpError, errorsIsCanceled, hc] at h
  | ok u =>
      cases storageRes with
      | error e =>
          by_cases hc : errorsIsCanceled e <;>
            simp [readHandler, read, httpError, errorsIsCanceled, hc] at h
      | ok v =>
          cases encRes with
          | error e =>
              by_cases hc : errorsIsCanceled e <;>
                simp [readHandler, read, httpError, errorsIsCanceled, hc] at h
          | ok body => simp [readHandler, read] at h

theorem counters_monotone :
    (∀ (decRes : Except GoError Unit) (writeRes : Except GoError Int),
        ∀ ev ∈ writeHandler decRes writeRes, ∀ c, 0 ≤ counterDelta c ev) ∧
    (∀ (decRes storageRes : Except GoError Unit) (encRes : Except GoError String),
        ∀ ev ∈ readHandler decRes storageRes encRes, ∀ c, 0 ≤ counterDelta c ev) ∧
    (∀ r : HttpRequest, ∀ ev ∈ rootHandler r, ∀ c, 0 ≤ counterDelta c ev) := by
  refine ⟨?_, ?_, ?_⟩
  · intro decRes writeRes ev hev c
    refine counterDelta_nonneg c ev ?_
    intro c' n hadd
    exact le_of_lt (writeHandler_add_pos decRes writeRes (hadd ▸ hev))
  · intro decRes storageRes encRes ev hev c
    refine counterDelta_nonneg c ev ?_
    intro c' n hadd
    exact (readHandler_no_add decRes storageRes encRes (hadd ▸ hev)).elim
  · intro r ev hev c
    refine counterDelta_nonneg c ev ?_
    intro c' n hadd
    subst hadd
    simp [rootHandler] at hev

/-- Witness for `counters_monotone`: the write-request increment at the
head of a concrete successful write trace is non-negative. -/
theorem counters_monotone_witness :
    0 ≤ counterDelta .writeRequests (Event.inc .writeRequests) :=
  counters_monotone.1 (.ok ()) (.ok 2) (Event.inc .writeRequests)
    (by simp [writeHandler]) .writeRequests

/-- Claim C2: a write request that fails at decode or at storage bumps
`writeErrorsTotal` once and gets a 500 plain-text error reply; a write
where both succeed bumps no error counter and sends no status and no body
(an empty success response). -/
theorem write_endpoint_responses :
    (∀ (e : GoError) (wres : Except GoError Int),
        counterTotal .writeErrors (writeHandler (.error e) wres) = 1 ∧
        Event.writeHeader 500 ∈ writeHandler (.error e) wres ∧
        Event.setHeader "Content-Type" "text/plain; charset=utf-8" ∈
          writeHandler (.error e) wres ∧
        Event.write (errString e ++ "\n") ∈ writeHandler (.error e) wres) ∧
    (∀ e : GoError,
        counterTotal .writeErrors (writeHandler (.ok ()) (.error e)) = 1 ∧
        Event.writeHeader 500 ∈ writeHandler (.ok ()) (.error e) ∧
        Event.setHeader "Content-Type" "text/plain; charset=utf-8" ∈
          writeHandler (.ok ()) (.error e) ∧
        Event.write (errString e ++ "\n") ∈ writeHandler (.ok ()) (.error e)) ∧
    (∀ n : Int,
        counterTotal .writeErrors (writeHandler (.ok ()) (.ok n)) = 0 ∧
        (writeHandler (.ok ()) (.ok n)).filter isResponseWrite = []) := by
  refine ⟨?_, ?_, ?_⟩
  · intro e wres
    refine ⟨?_, by simp [writeHandler, httpError], by simp [writeHandler, httpError],
      by simp [writeHandler, httpError]⟩
    simp [writeHandler, httpError, counterTotal_cons, counterTotal_append,
      counterTotal, counterDelta]
  · intro e
    refine ⟨?_, by simp [writeHandler, httpError], by simp [writeHandler, httpError],
      by simp [writeHandler, httpError]⟩
    simp [writeHandler, httpError, counterTotal_cons, counterTotal_append,
      counterTotal, counterDelta]
  · intro n
    by_cases hc : 0 < n <;>
      simp [writeHandler, hc, isResponseWrite, counterTotal_cons,
        counterTotal_append, counterTotal, counterDelta]

/-- Claim C1: a read request failing with a non-cancellation error (at
decode, storage, or encode) bumps `readErrorsTotal` once and gets a 500
plain-text error reply carrying the wrapped error text; a read failing
with an error that wraps `context.Canceled` bumps no error counter and
triggers no status or body write from the error path. -/
theorem read_endpoint_error_policy
    (e : GoError) (storageRes : Except GoError Unit)
    (encRes : Except GoError String) :
    ((errorsIsCanceled e = false →
        counterTotal .readErrors (readHandler (.error e) storageRes encRes) = 1 ∧
        Event.writeHeader 500 ∈ readHandler (.error e) storageRes encRes ∧
        Event.setHeader "Content-Type" "text/plain; charset=utf-8" ∈
          readHandler (.error e) storageRes encRes ∧
        Event.write (errString (.wrap "DecodeReadRequest" e) ++ "\n") ∈
          readHandler (.error e) storageRes encRes) ∧
     (errorsIsCanceled e = true →
        counterTotal .readErrors (readHandler (.error e) storageRes encRes) = 0 ∧
        counterTotal .writeErrors (readHandler (.error e) storageRes encRes) = 0 ∧
        (readHandler (.error e) storageRes encRes).filter isResponseWrite = [])) ∧
    ((errorsIsCanceled e = false →
        counterTotal .readErrors (readHandler (.ok ()) (.error e) encRes) = 1 ∧
        Event.writeHeader 500 ∈ readHandler (.ok ()) (.error e) encRes ∧
        Event.setHeader "Content-Type" "text/plain; charset=utf-8" ∈
          readHandler (.ok ()) (.error e) encRes ∧
        Event.write (errString (.wrap "ReadRequest" e) ++ "\n") ∈
          readHandler (.ok ()) (.error e) encRes) ∧
     (errorsIsCanceled e = true →
        counterTotal .readErrors (readHandler (.ok ()) (.error e) encRes) = 0 ∧
        counterTotal .writeErrors (readHandler (.ok ()) (.error e) encRes) = 0 ∧
        (readHandler (.ok ()) (.error e) encRes).filter isResponseWrite = [])) ∧
    ((errorsIsCanceled e = false →
        counterTotal .readErrors (readHandler (.ok ()) (.ok ()) (.error e)) = 1 ∧
        Event.writeHeader 500 ∈ readHandler (.ok ()) (.ok ()) (.error e) ∧
        Event.setHeader "Content-Type" "text/plain; charset=utf-8" ∈
          readHandler (.ok ()) (.ok ()) (.error e) ∧
        Event.write (errString (.wrap "EncodeReadResponse" e) ++ "\n") ∈
          readHandler (.ok ()) (.ok ()) (.error e)) ∧
     (errorsIsCanceled e = true →
        counterTotal .readErrors (readHandler (.ok ()) (.ok ()) (.error e)) = 0 ∧
        counterTotal .writeErrors (readHandler (.ok ()) (.ok ()) (.error e)) = 0 ∧
        (readHandler (.ok ()) (.ok ()) (.error e)).filter isResponseWrite = [])) := by
  refine ⟨⟨?_, ?_⟩, ⟨?_, ?_⟩, ⟨?_, ?_⟩⟩ <;> intro hc <;>
    simp [readHandler, read, httpError, errString, errorsIsCanceled, hc,
      isResponseWrite, counterTotal_cons, counterTotal_append,
      counterTotal, counterDelta]

/-- Witness for `read_endpoint_error_policy`: a storage fault is counted
and answered with a 500; a canceled storage call is not counted and
triggers no response write. -/
theorem read_endpoint_error_policy_witness :
    (counterTotal .readErrors
        (readHandler (.ok ()) (.error (.msg "boom")) (.ok "")) = 1 ∧
      Event.writeHeader 500 ∈ readHandler (.ok ()) (.error (.msg "boom")) (.ok "")) ∧
    (counterTotal .readErrors
        (readHandler (.ok ()) (.error .canceled) (.ok "")) = 0 ∧
      (readHandler (.ok ()) (.error .canceled) (.ok "")).filter isResponseWrite = []) := by
  have h1 :=
    ((read_endpoint_error_policy (.msg "boom") (.ok ()) (.ok "")).2.1).1 rfl
  have h2 :=
    ((read_endpoint_error_policy .canceled (.ok ()) (.ok "")).2.1).2 rfl
  exact ⟨⟨h1.1, h1.2.1⟩, ⟨h2.1, h2.2.2⟩⟩

/-- Counterexample to claim C3 as stated: on the write endpoint a storage
failure equal to `context.Canceled` — which wraps context cancellation —
still increments `writeErrorsTotal`, because the `/write` handler, unlike
the `/read` handler, never tests `errors.Is(err, context.Canceled)`. -/
theorem write_cancellation_still_counted :
    errorsIsCanceled GoError.canceled = true ∧
    counterTotal .writeErrors (writeHandler (.ok ()) (.error .canceled)) = 1 := by
  constructor
  · rfl
  · simp [writeHandler, httpError, counterTotal_cons, counterTotal_append,
      counterTotal, counterDelta]

/-- Claim C3 amended: only the read endpoint excludes cancellation from
error counting — `readErrorsTotal` is not incremented when the read
error wraps `context.Canceled` — while the write endpoint increments
`writeErrorsTotal` on every decode or storage failure, including errors
wrapping cancellation. -/
theorem cancellation_counting_policy :
    (∀ (e : GoError) (storageRes : Except GoError Unit)
        (encRes : Except GoError String), errorsIsCanceled e = true →
        counterTotal .readErrors (readHandler (.error e) storageRes encRes) = 0 ∧
        counterTotal .readErrors (readHandler (.ok ()) (.error e) encRes) = 0 ∧
        counterTotal .readErrors (readHandler (.ok ()) (.ok ()) (.error e)) = 0) ∧
    (∀ e : GoError,
        counterTotal .writeErrors (writeHandler (.ok ()) (.error e)) = 1 ∧
        (∀ wres : Except GoError Int,
          counterTotal .writeErrors (writeHandler (.error e) wres) = 1)) := by
  constructor
  · intro e storageRes encRes hc
    refine ⟨?_, ?_, ?_⟩ <;>
      simp [readHandler, read, httpError, errorsIsCanceled, hc,
        counterTotal_cons, counterTotal_append, counterTotal, counterDelta]
  · intro e
    constructor
    · simp [writeHandler, httpError, counterTotal_cons, counterTotal_append,
        counterTotal, counterDelta]
    · intro wres
      simp [writeHandler, httpError, counterTotal_cons, counterTotal_append,
        counterTotal, counterDelta]

/-- Witness for `cancellation_counting_policy` at `context.Canceled`
itself. -/
theorem cancellation_counting_policy_witness :
    counterTotal .readErrors
        (readHandler (.ok ()) (.error .canceled) (.ok "")) = 0 ∧
    counterTotal .writeErrors (writeHandler (.ok ()) (.error .canceled)) = 1 :=
  ⟨(cancellation_counting_policy.1 .canceled (.ok ()) (.ok "") rfl).2.1,
   (cancellation_counting_policy.2 .canceled).1⟩

end RemoteTsdb
